import Mathlib

/-!
Shallow embedding of the Tauri HTTP plugin guest binding
(`src/plugins/http/guest-js/index.ts`), the single source file of this
repository slice.

The binding translates a fetch-like call into a sequence of engine calls
(`plugin:http|fetch`, `plugin:http|fetch_cancel`, `plugin:http|fetch_send`,
`plugin:http|fetch_read_body`).  We embed the binding as a pure function
from an already-constructed request, the abort-signal states observed at
each of the binding's checkpoints, and an abstract engine (the results the
engine would return for each call), to the binding's result together with
the ordered trace of engine calls it performs.
-/

namespace TauriHttp

/-! JavaScript string primitives used by the source.  A JS string is a
sequence of UTF-16 code units; we model it as a Lean `String` and define the
operations the source uses (`startsWith`, `substring(n)`, `length`) directly
on the underlying character list, which coincides with the JS code-unit
semantics for the ASCII data involved here. -/

/-- JS `s.startsWith(p)`: the code units of `p` are an initial segment of
those of `s`. -/
def jsStartsWith (s p : String) : Bool :=
  p.data.isPrefixOf s.data

/-- JS `s.substring(n)`: the string formed by the code units of `s` from
index `n` on. -/
def jsSubstring (s : String) (n : Nat) : String :=
  ⟨s.data.drop n⟩

/-- JS `s.length`: the number of code units of `s`. -/
def jsLength (s : String) : Nat :=
  s.data.length

/-! Data model, translated from the interfaces of the source file. -/

/-- Source `ProxyConfig`: url, optional basic-auth credentials, optional
no-proxy filter. -/
structure ProxyConfig where
  url : String
  basicAuth : Option (String × String)
  noProxy : Option String
deriving DecidableEq

/-- Source `Proxy`: each traffic class may be proxied to a plain URL or a
full `ProxyConfig`. -/
structure Proxy where
  all : Option (String ⊕ ProxyConfig)
  http : Option (String ⊕ ProxyConfig)
  https : Option (String ⊕ ProxyConfig)
deriving DecidableEq

/-- Source `ClientOptions`: maxRedirections, connectTimeout (ms), proxy. -/
structure ClientOptions where
  maxRedirections : Option Nat
  connectTimeout : Option Nat
  proxy : Option Proxy
deriving DecidableEq

/-- Source `ERROR_REQUEST_CANCELLED`. -/
def ERROR_REQUEST_CANCELLED : String := "Request canceled"

/-- Source `UNSAFE_HEADER_PREFIX`. -/
def UNSAFE_HEADER_PREFIX : String := "http_unsafe_header_"

/-- The request the binding works from, i.e. the observable state of the
`Request` object constructed by `new Request(input, init)`: its method, its
url, its header entries in iteration order (as yielded by
`req.headers.entries()`), and the bytes produced by `req.arrayBuffer()`
(empty when the request has no body). -/
structure JsRequest where
  method : String
  url : String
  headers : List (String × String)
  body : List Nat
deriving DecidableEq

/-- The abort-signal states the binding can observe.  The source reads
`signal?.aborted` exactly three times: at function entry, immediately
before the `plugin:http|fetch` (issue) call, and immediately before the
`plugin:http|fetch_send` (status) call.  The fourth field records what the
signal's state is at the moment just before the `plugin:http|fetch_read_body`
(body) call; the source never reads the signal there, so this field exists
only so that properties about that instant can be stated. -/
structure AbortSignal where
  abortedAtEntry : Bool
  abortedBeforeIssue : Bool
  abortedBeforeSend : Bool
  abortedBeforeBody : Bool
deriving DecidableEq

/-- The `clientConfig` payload of the `plugin:http|fetch` invoke call:
method, url, mapped headers, optional body data, pass-through options. -/
structure ClientConfig where
  method : String
  url : String
  headers : List (String × String)
  data : Option (List Nat)
  options : Option ClientOptions
deriving DecidableEq

/-- The source `FetchSendResponse` interface: status, statusText, response
headers, final url, and the body resource id. -/
structure FetchSendResponse where
  status : Nat
  statusText : String
  headers : List (String × String)
  url : String
  rid : Nat
deriving DecidableEq

/-- The value returned by `plugin:http|fetch_read_body`: the source types
it `ArrayBuffer | number[]`. -/
inductive BodyPayload where
  | arrayBuffer (bytes : List Nat)
  | byteArray (bytes : List Nat)
deriving DecidableEq

/-- Errors a fetch call can end in: the binding's locally raised
cancellation error (`throw new Error(ERROR_REQUEST_CANCELLED)`), or an
engine rejection propagated verbatim. -/
inductive FetchError where
  | cancelled (message : String)
  | engine (message : String)
deriving DecidableEq

/-- One engine call made by the binding, with its payload. -/
inductive EngineCall where
  | issue (cfg : ClientConfig)
  | cancel (rid : Nat)
  | send (rid : Nat)
  | readBody (rid : Nat)
deriving DecidableEq

/-- The abstract engine: for each invoke target, the result the engine
would return (a value, or a rejection carrying the engine's error). -/
structure Engine where
  fetchIssue : ClientConfig → Except String Nat
  fetchSend : Nat → Except String FetchSendResponse
  fetchReadBody : Nat → Except String BodyPayload

/-- The observable state of the `Response` the binding returns.  `body` is
the body the `Response` constructor received (`none` models the JS `null`
argument). -/
structure JsResponse where
  status : Nat
  statusText : String
  body : Option (List Nat)
  url : String
  headers : List (String × String)
deriving DecidableEq

/-! The binding's operations, translated statement by statement from the
source `fetch` function. -/

/-- One iteration of the header-mapping loop: names carrying
`UNSAFE_HEADER_PREFIX` are stripped of it (`key.substring(prefix.length)`),
all other pairs pass through unchanged. -/
def mapHeader (kv : String × String) : String × String :=
  if jsStartsWith kv.1 UNSAFE_HEADER_PREFIX then
    (jsSubstring kv.1 (jsLength UNSAFE_HEADER_PREFIX), kv.2)
  else
    kv

/-- The `clientConfig` the binding sends on the issue call: the request's
method and url, the mapped headers (the loop pushes one pair per entry in
entry order, i.e. a map), the body data
(`buffer.byteLength !== 0 ? Array.from(new Uint8Array(buffer)) : null`),
and the caller's options forwarded untouched. -/
def issuedConfig (req : JsRequest) (options : Option ClientOptions) : ClientConfig :=
  { method := req.method
    url := req.url
    headers := req.headers.map mapHeader
    data := if req.body.length ≠ 0 then some req.body else none
    options := options }

/-- JS `new Response(body, { status, statusText })`: a freshly constructed
`Response` has the default url (the empty string) and, since no headers are
passed to the constructor, an empty header list. -/
def mkResponse (body : Option (List Nat)) (status : Nat) (statusText : String) : JsResponse :=
  { status := status, statusText := statusText, body := body, url := "", headers := [] }

/-- JS `Object.defineProperty(res, 'url', { value: url })`. -/
def setUrlProperty (res : JsResponse) (url : String) : JsResponse :=
  { res with url := url }

/-- JS `Object.defineProperty(res, 'headers', { value: new Headers(responseHeaders) })`. -/
def setHeadersProperty (res : JsResponse) (headers : List (String × String)) : JsResponse :=
  { res with headers := headers }

/-- The body argument handed to the `Response` constructor:
`body instanceof ArrayBuffer && body.byteLength !== 0 ? body :
body instanceof Array && body.length > 0 ? new Uint8Array(body) : null`. -/
def responseBody : BodyPayload → Option (List Nat)
  | .arrayBuffer bytes => if bytes.length ≠ 0 then some bytes else none
  | .byteArray bytes => if bytes.length > 0 then some bytes else none

/-- JS `signal?.aborted` with a given field read: `false` when no signal
was supplied. -/
def signalAborted (signal : Option AbortSignal) (read : AbortSignal → Bool) : Bool :=
  match signal with
  | some s => read s
  | none => false

/-- The source `fetch` function, as the pair of its result and the ordered
trace of engine calls it performs.  The `signal?.addEventListener('abort', ...)`
registration after the third checkpoint is an event subscription, not an
engine call, and so does not appear in the trace. -/
def fetchBinding (req : JsRequest) (signal : Option AbortSignal)
    (options : Option ClientOptions) (eng : Engine) :
    Except FetchError JsResponse × List EngineCall :=
  if signalAborted signal (fun s => s.abortedAtEntry) then
    (.error (.cancelled ERROR_REQUEST_CANCELLED), [])
  else
    if signalAborted signal (fun s => s.abortedBeforeIssue) then
      (.error (.cancelled ERROR_REQUEST_CANCELLED), [])
    else
      let cfg := issuedConfig req options
      match eng.fetchIssue cfg with
      | .error e => (.error (.engine e), [.issue cfg])
      | .ok rid =>
        if signalAborted signal (fun s => s.abortedBeforeSend) then
          (.error (.cancelled ERROR_REQUEST_CANCELLED), [.issue cfg, .cancel rid])
        else
          match eng.fetchSend rid with
          | .error e => (.error (.engine e), [.issue cfg, .send rid])
          | .ok sr =>
            match eng.fetchReadBody sr.rid with
            | .error e =>
              (.error (.engine e), [.issue cfg, .send rid, .readBody sr.rid])
            | .ok payload =>
              (.ok (setHeadersProperty
                      (setUrlProperty
                        (mkResponse (responseBody payload) sr.status sr.statusText)
                        sr.url)
                      sr.headers),
               [.issue cfg, .send rid, .readBody sr.rid])

/-! Theorems. -/

/-- C1: if the cancellation signal is already active at either checkpoint
before the engine issue call (function entry, or the check immediately
before the issue call), the binding results in the cancellation error and
its engine-call trace is empty: no issue, no status and no body call
reaches the engine. -/
theorem cancelled_before_issue_no_engine_calls (req : JsRequest) (s : AbortSignal)
    (options : Option ClientOptions) (eng : Engine)
    (h : s.abortedAtEntry = true ∨ s.abortedBeforeIssue = true) :
    fetchBinding req (some s) options eng =
      (.error (.cancelled ERROR_REQUEST_CANCELLED), []) := by
  cases hA : s.abortedAtEntry with
  | true => simp [fetchBinding, signalAborted, hA]
  | false =>
    rcases h with h | h
    · exact absurd hA (by simp [h])
    · simp [fetchBinding, signalAborted, hA, h]

/-- C1 witness: at a concrete request whose signal is active before
issuance, the binding returns the cancellation error with an empty trace. -/
theorem cancelled_before_issue_no_engine_calls_witness :
    fetchBinding ⟨"GET", "http://h/", [], []⟩ (some ⟨false, true, true, true⟩) none
      ⟨fun _ => .ok 1, fun _ => .error "x", fun _ => .error "x"⟩ =
      (.error (.cancelled ERROR_REQUEST_CANCELLED), []) :=
  cancelled_before_issue_no_engine_calls _ _ _ _ (Or.inr rfl)

/-- C2: if the signal is observed active at the check after the issue call
returned a handle but before the status call, the binding's trace is
exactly the issue call followed by a cancel call for that very handle, and
the result is the cancellation error: the handle is not silently orphaned. -/
theorem cancelled_after_issue_cancels_obtained_handle (req : JsRequest) (s : AbortSignal)
    (options : Option ClientOptions) (eng : Engine) (rid : Nat)
    (h0 : s.abortedAtEntry = false) (h1 : s.abortedBeforeIssue = false)
    (h2 : s.abortedBeforeSend = true)
    (hIssue : eng.fetchIssue (issuedConfig req options) = .ok rid) :
    fetchBinding req (some s) options eng =
      (.error (.cancelled ERROR_REQUEST_CANCELLED),
       [.issue (issuedConfig req options), .cancel rid]) := by
  simp [fetchBinding, signalAborted, h0, h1, h2, hIssue]

/-- C2 witness: at a concrete request whose signal activates right after
issuance, the trace is the issue call then a cancel of the returned
handle 7, and the result is the cancellation error. -/
theorem cancelled_after_issue_cancels_obtained_handle_witness :
    fetchBinding ⟨"GET", "http://h/", [], []⟩ (some ⟨false, false, true, true⟩) none
      ⟨fun _ => .ok 7, fun _ => .error "x", fun _ => .error "x"⟩ =
      (.error (.cancelled ERROR_REQUEST_CANCELLED),
       [.issue (issuedConfig ⟨"GET", "http://h/", [], []⟩ none), .cancel 7]) :=
  cancelled_after_issue_cancels_obtained_handle _ _ _ _ 7 rfl rfl rfl rfl

/-- C6: if the engine's issue call rejects, the binding's result is the
engine's error propagated verbatim, and the trace contains only the issue
call: no status call, no body call, and no retry. -/
theorem issue_rejection_propagated_verbatim (req : JsRequest)
    (signal : Option AbortSignal) (options : Option ClientOptions) (eng : Engine)
    (e : String)
    (h0 : signalAborted signal (fun s => s.abortedAtEntry) = false)
    (h1 : signalAborted signal (fun s => s.abortedBeforeIssue) = false)
    (hIssue : eng.fetchIssue (issuedConfig req options) = .error e) :
    fetchBinding req signal options eng =
      (.error (.engine e), [.issue (issuedConfig req options)]) := by
  simp [fetchBinding, h0, h1, hIssue]

/-- C6 witness: at a concrete request denied by the engine's scope check,
the binding rejects with that very error and only the issue call was
made. -/
theorem issue_rejection_propagated_verbatim_witness :
    fetchBinding ⟨"GET", "http://denied/", [], []⟩ none none
      ⟨fun _ => .error "url not allowed on the configured scope",
       fun _ => .error "x", fun _ => .error "x"⟩ =
      (.error (.engine "url not allowed on the configured scope"),
       [.issue (issuedConfig ⟨"GET", "http://denied/", [], []⟩ none)]) :=
  issue_rejection_propagated_verbatim _ none none _ _ rfl rfl rfl

/-- C3: the headers transmitted on the issue call are the entry-wise image
of the constructed request's headers under `mapHeader`; a pair whose name
is the reserved unsafe-header prefix followed by `rest` is transmitted as
`rest` with the value unchanged, and a pair whose name does not start with
the prefix is transmitted unchanged. -/
theorem unsafe_header_name_stripping (req : JsRequest) (options : Option ClientOptions) :
    (issuedConfig req options).headers = req.headers.map mapHeader ∧
    (∀ rest value : String,
        mapHeader (UNSAFE_HEADER_PREFIX ++ rest, value) = (rest, value)) ∧
    (∀ key value : String, jsStartsWith key UNSAFE_HEADER_PREFIX = false →
        mapHeader (key, value) = (key, value)) := by
  refine ⟨rfl, fun rest value => ?_, fun key value h => ?_⟩
  · have hpre : jsStartsWith (UNSAFE_HEADER_PREFIX ++ rest) UNSAFE_HEADER_PREFIX = true := by
      simp only [jsStartsWith, List.isPrefixOf_iff_prefix]
      exact ⟨rest.data, by simp [String.data_append]⟩
    have hdrop : jsSubstring (UNSAFE_HEADER_PREFIX ++ rest)
        (jsLength UNSAFE_HEADER_PREFIX) = rest := by
      simp only [jsSubstring, jsLength, String.data_append, List.drop_left]
    simp [mapHeader, hpre, hdrop]
  · simp [mapHeader, h]

/-- C3 witness: a concrete prefixed header is transmitted stripped with
its value intact, and a concrete unprefixed header is transmitted
unchanged. -/
theorem unsafe_header_name_stripping_witness :
    mapHeader ("http_unsafe_header_origin", "https://a.example") =
      ("origin", "https://a.example") ∧
    mapHeader ("accept", "application/json") = ("accept", "application/json") :=
  ⟨by
    have h := (unsafe_header_name_stripping ⟨"GET", "u", [], []⟩ none).2.1
      "origin" "https://a.example"
    simpa using h,
   (unsafe_header_name_stripping ⟨"GET", "u", [], []⟩ none).2.2
     "accept" "application/json" (by decide)⟩

/-- C4: with a non-empty request body the issue call's data field is
exactly those bytes in order, with no body it is the explicit no-body
marker `none` (the JS `null`) rather than an empty byte sequence; and when
the binding reaches the engine at all, the first call of its trace is the
issue call carrying that config. -/
theorem body_bytes_roundtrip (req : JsRequest) (options : Option ClientOptions)
    (eng : Engine) :
    (req.body ≠ [] → (issuedConfig req options).data = some req.body) ∧
    (req.body = [] → (issuedConfig req options).data = none) ∧
    (fetchBinding req none options eng).2.head? =
      some (.issue (issuedConfig req options)) := by
  refine ⟨fun h => ?_, fun h => ?_, ?_⟩
  · simp [issuedConfig, List.length_eq_zero, h]
  · simp [issuedConfig, h]
  · simp only [fetchBinding, signalAborted]
    cases hI : eng.fetchIssue (issuedConfig req options) with
    | error e => simp
    | ok rid =>
      cases hS : eng.fetchSend rid with
      | error e => simp [hS]
      | ok sr =>
        cases hB : eng.fetchReadBody sr.rid with
        | error e => simp [hS, hB]
        | ok payload => simp [hS, hB]

/-- C4 witness: a concrete three-byte body reaches the engine as exactly
those three bytes, a concrete bodiless request reaches it as `none`, and
the first engine call is the issue call. -/
theorem body_bytes_roundtrip_witness :
    (issuedConfig ⟨"POST", "http://h/", [], [1, 2, 3]⟩ none).data = some [1, 2, 3] ∧
    (issuedConfig ⟨"GET", "http://h/", [], []⟩ none).data = none :=
  ⟨(body_bytes_roundtrip ⟨"POST", "http://h/", [], [1, 2, 3]⟩ none
      ⟨fun _ => .ok 1, fun _ => .error "x", fun _ => .error "x"⟩).1 (by decide),
   (body_bytes_roundtrip ⟨"GET", "http://h/", [], []⟩ none
      ⟨fun _ => .ok 1, fun _ => .error "x", fun _ => .error "x"⟩).2.1 rfl⟩

/-- C8: the header list transmitted to the engine has the same length as
the constructed request's header-entry list, the pair at every index `i`
is the image under `mapHeader` of the request's pair at the same index `i`
(so the caller's entry order is preserved and duplicate names survive as
separate entries), and `mapHeader` never changes a value. -/
theorem headers_order_and_duplicates_preserved (req : JsRequest)
    (options : Option ClientOptions) :
    (issuedConfig req options).headers.length = req.headers.length ∧
    (∀ i : Nat, (issuedConfig req options).headers[i]? =
        (req.headers[i]?).map mapHeader) ∧
    (∀ key value : String, (mapHeader (key, value)).2 = value) := by
  refine ⟨by simp [issuedConfig], fun i => ?_, fun key value => ?_⟩
  · simp [issuedConfig]
  · by_cases h : jsStartsWith key UNSAFE_HEADER_PREFIX <;> simp [mapHeader, h]

/-- C5: on a successful fetch the binding returns the response built by
constructing it from the body, status and statusText and then overriding
its url and headers properties; consequently the returned response's url
and headers are exactly the url and header pairs of the engine's
status/headers reply, not values left by the construction (which yields an
empty url and no headers). -/
theorem response_url_and_headers_from_status_call (req : JsRequest)
    (signal : Option AbortSignal) (options : Option ClientOptions) (eng : Engine)
    (rid : Nat) (sr : FetchSendResponse) (payload : BodyPayload)
    (h0 : signalAborted signal (fun s => s.abortedAtEntry) = false)
    (h1 : signalAborted signal (fun s => s.abortedBeforeIssue) = false)
    (h2 : signalAborted signal (fun s => s.abortedBeforeSend) = false)
    (hIssue : eng.fetchIssue (issuedConfig req options) = .ok rid)
    (hSend : eng.fetchSend rid = .ok sr)
    (hBody : eng.fetchReadBody sr.rid = .ok payload) :
    (fetchBinding req signal options eng).1 =
      .ok (setHeadersProperty
            (setUrlProperty (mkResponse (responseBody payload) sr.status sr.statusText)
              sr.url)
            sr.headers) ∧
    ∀ res, (fetchBinding req signal options eng).1 = .ok res →
      res.url = sr.url ∧ res.headers = sr.headers := by
  have hres : (fetchBinding req signal options eng).1 =
      .ok (setHeadersProperty
            (setUrlProperty (mkResponse (responseBody payload) sr.status sr.statusText)
              sr.url)
            sr.headers) := by
    simp [fetchBinding, h0, h1, h2, hIssue, hSend, hBody]
  refine ⟨hres, fun res hok => ?_⟩
  rw [hres] at hok
  have : res = setHeadersProperty
      (setUrlProperty (mkResponse (responseBody payload) sr.status sr.statusText) sr.url)
      sr.headers := by
    cases hok
    rfl
  subst this
  exact ⟨rfl, rfl⟩

/-- C5 witness: at a concrete successful fetch the returned response's url
and headers are the ones of the engine's status/headers reply. -/
theorem response_url_and_headers_from_status_call_witness :
    ∃ res,
      (fetchBinding ⟨"GET", "http://h/data.json", [], []⟩ none none
        ⟨fun _ => .ok 1,
         fun _ => .ok ⟨200, "OK", [⟨"set-cookie", "a=1"⟩], "http://h/final", 2⟩,
         fun _ => .ok (.arrayBuffer [65])⟩).1 = .ok res ∧
      res.url = "http://h/final" ∧ res.headers = [⟨"set-cookie", "a=1"⟩] := by
  have h := response_url_and_headers_from_status_call ⟨"GET", "http://h/data.json", [], []⟩
    none none
    ⟨fun _ => .ok 1,
     fun _ => .ok ⟨200, "OK", [⟨"set-cookie", "a=1"⟩], "http://h/final", 2⟩,
     fun _ => .ok (.arrayBuffer [65])⟩
    1 ⟨200, "OK", [⟨"set-cookie", "a=1"⟩], "http://h/final", 2⟩ (.arrayBuffer [65])
    rfl rfl rfl rfl rfl rfl
  exact ⟨_, h.1, (h.2 _ h.1).1, (h.2 _ h.1).2⟩

/-- C10: a zero-length ArrayBuffer and a zero-length array from the
engine's body call both make the binding construct the response with a
null body, so the successful fetch yields a response whose body is `none`:
an empty and an absent response body are indistinguishable to the
caller. -/
theorem empty_engine_body_becomes_null (req : JsRequest)
    (signal : Option AbortSignal) (options : Option ClientOptions) (eng : Engine)
    (rid : Nat) (sr : FetchSendResponse) (payload : BodyPayload)
    (h0 : signalAborted signal (fun s => s.abortedAtEntry) = false)
    (h1 : signalAborted signal (fun s => s.abortedBeforeIssue) = false)
    (h2 : signalAborted signal (fun s => s.abortedBeforeSend) = false)
    (hIssue : eng.fetchIssue (issuedConfig req options) = .ok rid)
    (hSend : eng.fetchSend rid = .ok sr)
    (hBody : eng.fetchReadBody sr.rid = .ok payload)
    (hEmpty : payload = .arrayBuffer [] ∨ payload = .byteArray []) :
    responseBody (.arrayBuffer []) = none ∧
    responseBody (.byteArray []) = none ∧
    ∃ res, (fetchBinding req signal options eng).1 = .ok res ∧ res.body = none := by
  refine ⟨rfl, rfl, ?_⟩
  refine ⟨setHeadersProperty
      (setUrlProperty (mkResponse (responseBody payload) sr.status sr.statusText) sr.url)
      sr.headers, ?_, ?_⟩
  · simp [fetchBinding, h0, h1, h2, hIssue, hSend, hBody]
  · rcases hEmpty with h | h <;> subst h <;> rfl

/-- C10 witness: at a concrete fetch whose engine body reply is a
zero-length ArrayBuffer, the returned response has a null body. -/
theorem empty_engine_body_becomes_null_witness :
    ∃ res,
      (fetchBinding ⟨"GET", "http://h/", [], []⟩ none none
        ⟨fun _ => .ok 1, fun _ => .ok ⟨204, "No Content", [], "http://h/", 2⟩,
         fun _ => .ok (.arrayBuffer [])⟩).1 = .ok res ∧
      res.body = none :=
  (empty_engine_body_becomes_null ⟨"GET", "http://h/", [], []⟩ none none
    ⟨fun _ => .ok 1, fun _ => .ok ⟨204, "No Content", [], "http://h/", 2⟩,
     fun _ => .ok (.arrayBuffer [])⟩
    1 ⟨204, "No Content", [], "http://h/", 2⟩ (.arrayBuffer [])
    rfl rfl rfl rfl rfl rfl (Or.inl rfl)).2.2

/-- C9: every error a fetch call ends in is either the binding's locally
raised cancellation error, which always carries the one stable message
`ERROR_REQUEST_CANCELLED`, or an engine-reported error; and a cancellation
error is never equal to any engine-reported error, whatever the messages. -/
theorem cancellation_error_stable_and_local (req : JsRequest)
    (signal : Option AbortSignal) (options : Option ClientOptions) (eng : Engine)
    (err : FetchError) (trace : List EngineCall)
    (h : fetchBinding req signal options eng = (.error err, trace)) :
    (err = .cancelled ERROR_REQUEST_CANCELLED ∨ ∃ e, err = .engine e) ∧
    (∀ m e, FetchError.cancelled m ≠ FetchError.engine e) := by
  refine ⟨?_, fun m e hc => by cases hc⟩
  cases hA : signalAborted signal (fun s => s.abortedAtEntry) with
  | true =>
    simp [fetchBinding, hA] at h
    exact Or.inl h.1.symm
  | false =>
  cases hB : signalAborted signal (fun s => s.abortedBeforeIssue) with
  | true =>
    simp [fetchBinding, hA, hB] at h
    exact Or.inl h.1.symm
  | false =>
  cases hI : eng.fetchIssue (issuedConfig req options) with
  | error e =>
    simp [fetchBinding, hA, hB, hI] at h
    exact Or.inr ⟨e, h.1.symm⟩
  | ok rid =>
  cases hC : signalAborted signal (fun s => s.abortedBeforeSend) with
  | true =>
    simp [fetchBinding, hA, hB, hC, hI] at h
    exact Or.inl h.1.symm
  | false =>
  cases hS : eng.fetchSend rid with
  | error e =>
    simp [fetchBinding, hA, hB, hC, hI, hS] at h
    exact Or.inr ⟨e, h.1.symm⟩
  | ok sr =>
  cases hR : eng.fetchReadBody sr.rid with
  | error e =>
    simp [fetchBinding, hA, hB, hC, hI, hS, hR] at h
    exact Or.inr ⟨e, h.1.symm⟩
  | ok payload =>
    simp [fetchBinding, hA, hB, hC, hI, hS, hR] at h

/-- C9 witness: a concrete cancelled fetch ends in the cancellation error
with the stable message, and that error differs from every engine error. -/
theorem cancellation_error_stable_and_local_witness :
    ((FetchError.cancelled ERROR_REQUEST_CANCELLED =
        .cancelled ERROR_REQUEST_CANCELLED ∨
      ∃ e, FetchError.cancelled ERROR_REQUEST_CANCELLED = .engine e) ∧
     ∀ m e, FetchError.cancelled m ≠ FetchError.engine e) :=
  cancellation_error_stable_and_local ⟨"GET", "http://h/", [], []⟩
    (some ⟨true, true, true, true⟩) none
    ⟨fun _ => .ok 1, fun _ => .error "x", fun _ => .error "x"⟩
    (.cancelled ERROR_REQUEST_CANCELLED) [] rfl

/-- C7 counterexample: a run whose signal is active at the instant just
before the body call, yet the binding performs the body call and returns
success rather than the cancellation error — the source has no
cancellation check between the status call and the body call. -/
theorem no_cancellation_check_before_body_call :
    (AbortSignal.mk false false false true).abortedBeforeBody = true ∧
    (fetchBinding ⟨"GET", "http://h/", [], []⟩ (some ⟨false, false, false, true⟩) none
       ⟨fun _ => .ok 1, fun _ => .ok ⟨200, "OK", [], "http://h/", 2⟩,
        fun _ => .ok (.arrayBuffer [65])⟩).1 ≠
      .error (.cancelled ERROR_REQUEST_CANCELLED) ∧
    EngineCall.readBody 2 ∈
      (fetchBinding ⟨"GET", "http://h/", [], []⟩ (some ⟨false, false, false, true⟩) none
        ⟨fun _ => .ok 1, fun _ => .ok ⟨200, "OK", [], "http://h/", 2⟩,
         fun _ => .ok (.arrayBuffer [65])⟩).2 := by
  refine ⟨rfl, ?_, ?_⟩
  · intro hc
    cases hc
  · simp [fetchBinding, signalAborted]

/-- C7 (amended): the binding checks the cancellation signal at function
entry, immediately before the issue call and immediately before the
status call — an already-active signal at those checks yields the
cancellation error and the guarded engine call is never made — but there
is no check immediately before the body call. -/
theorem cancellation_checks_guard_issue_and_status (req : JsRequest) (s : AbortSignal)
    (options : Option ClientOptions) (eng : Engine) :
    ((s.abortedAtEntry = true ∨ s.abortedBeforeIssue = true) →
       (fetchBinding req (some s) options eng).1 =
         .error (.cancelled ERROR_REQUEST_CANCELLED) ∧
       ∀ cfg, EngineCall.issue cfg ∉ (fetchBinding req (some s) options eng).2) ∧
    (∀ rid, s.abortedAtEntry = false → s.abortedBeforeIssue = false →
       s.abortedBeforeSend = true →
       eng.fetchIssue (issuedConfig req options) = .ok rid →
       (fetchBinding req (some s) options eng).1 =
         .error (.cancelled ERROR_REQUEST_CANCELLED) ∧
       ∀ r, EngineCall.send r ∉ (fetchBinding req (some s) options eng).2) := by
  constructor
  · intro h
    have hrun : fetchBinding req (some s) options eng =
        (.error (.cancelled ERROR_REQUEST_CANCELLED), []) := by
      cases hA : s.abortedAtEntry with
      | true => simp [fetchBinding, signalAborted, hA]
      | false =>
        rcases h with h | h
        · exact absurd hA (by simp [h])
        · simp [fetchBinding, signalAborted, hA, h]
    rw [hrun]
    simp
  · intro rid h0 h1 h2 hIssue
    have hrun : fetchBinding req (some s) options eng =
        (.error (.cancelled ERROR_REQUEST_CANCELLED),
         [.issue (issuedConfig req options), .cancel rid]) := by
      simp [fetchBinding, signalAborted, h0, h1, h2, hIssue]
    rw [hrun]
    simp

/-- C7 (amended) witness: at a concrete request whose signal activates
between the issue call and the status call, the result is the
cancellation error and no status call is made. -/
theorem cancellation_checks_guard_issue_and_status_witness :
    (fetchBinding ⟨"GET", "http://h/", [], []⟩ (some ⟨false, false, true, true⟩) none
       ⟨fun _ => .ok 7, fun _ => .error "x", fun _ => .error "x"⟩).1 =
      .error (.cancelled ERROR_REQUEST_CANCELLED) ∧
    ∀ r, EngineCall.send r ∉
      (fetchBinding ⟨"GET", "http://h/", [], []⟩ (some ⟨false, false, true, true⟩) none
        ⟨fun _ => .ok 7, fun _ => .error "x", fun _ => .error "x"⟩).2 :=
  (cancellation_checks_guard_issue_and_status ⟨"GET", "http://h/", [], []⟩
    ⟨false, false, true, true⟩ none
    ⟨fun _ => .ok 7, fun _ => .error "x", fun _ => .error "x"⟩).2
    7 rfl rfl rfl rfl

end TauriHttp
